import Mathlib

/-!
Shallow embedding of the Madara L2 synchronization core
(`crates/client/sync/src/l2.rs`): the per-height block/state fetch
coordinator, the class-gap resolver and class downloader, the state
verification wrapper (`verify_l2`), the shared observation slots, and the
tip observer (`update_starknet_data`).

Modelling conventions:
* 252-bit field elements (`FieldElement`, `StarkHash`), substrate hashes
  (`H256`) and opaque payloads are modelled as `Nat`.
* Network calls and channel sends are resolved by an oracle
  (`IterOutcome`) giving the outcome of each remote interaction of one
  loop iteration; `Except String` mirrors the Rust `Result<_, String>`.
* Rust panics (`unwrap` / `expect` / `unreachable!`) are modelled as
  `Option.none` at the level of the function that panics, and as the
  distinguished results `StepResult.panicked` / `StepResult.unreachableHit`
  at the level of the sync loop body.
* The global `lazy_static` cells (`STARKNET_STATE_UPDATE`,
  `STARKNET_HIGHEST_BLOCK_HASH_AND_NUMBER`, `STARKNET_PENDING_BLOCK`,
  `STARKNET_PENDING_STATE_UPDATE`) are modelled as the fields of `Slots`,
  threaded through the state.
-/

/-- A deployed contract entry of a state diff: `DeployedContract { address, class_hash }`. -/
structure DeployedContract where
  address : Nat
  class_hash : Nat
deriving DecidableEq, Repr

/-- A declared class entry of a state diff:
`DeclaredContract { class_hash, compiled_class_hash }`. -/
structure DeclaredContract where
  class_hash : Nat
  compiled_class_hash : Nat
deriving DecidableEq, Repr

/-- The part of a sequencer state diff inspected by this module.  Storage
writes, nonce updates and replaced classes are carried opaquely (the sync
core never looks inside them; they only feed the commitment computation). -/
structure StateDiff where
  deployed_contracts : List DeployedContract
  declared_classes : List DeclaredContract
  storage_diffs : List (Nat × Nat × Nat)
  nonces : List (Nat × Nat)
deriving DecidableEq, Repr

/-- A sequencer `StateUpdate`.  `block_hash` is `none` exactly when the
gateway returned a pending state update (the `Option` of the Rust type). -/
structure StateUpdate where
  block_hash : Option Nat
  old_root : Nat
  new_root : Nat
  state_diff : StateDiff
deriving DecidableEq, Repr

/-- The verified L2 tip stored in `STARKNET_STATE_UPDATE`
(`L2StateUpdate { block_number, global_root, block_hash }`). -/
structure L2StateUpdate where
  block_number : Nat
  global_root : Nat
  block_hash : Nat
deriving DecidableEq, Repr

/-- A downloaded class: `ContractClassData { hash, contract_class }`, the
class body kept opaque. -/
structure ContractClassData where
  hash : Nat
  contract_class : Nat
deriving DecidableEq, Repr

/-- The pending block data used by `update_starknet_data`: the gateway
block's `parent_block_hash` and optional `block_number`, plus the rest of
the block carried opaquely. -/
structure PendingBlockData where
  parent_block_hash : Nat
  block_number : Option Nat
  payload : Nat
deriving DecidableEq, Repr

/-- The four process-wide observation slots of the source
(`STARKNET_STATE_UPDATE`, `STARKNET_HIGHEST_BLOCK_HASH_AND_NUMBER`,
`STARKNET_PENDING_BLOCK`, `STARKNET_PENDING_STATE_UPDATE`).  Pending block
and pending state update are stored after an opaque conversion, modelled
as `Nat` payloads. -/
structure Slots where
  starknet_state_update : L2StateUpdate
  highest_block_hash_and_number : Nat × Nat
  pending_block : Option Nat
  pending_state_update : Option Nat
deriving DecidableEq, Repr

/-- `u64` modulus, used where the source does `u64` arithmetic that can wrap. -/
def U64_MOD : Nat := 2 ^ 64

/-- Boolean success test for a `Result` (`Result::is_ok`). -/
def exceptIsOk {ε α : Type} : Except ε α → Bool
  | .ok _ => true
  | .error _ => false

/-- Auxiliary recursion for `itertools`' `.unique()`: keep the first
occurrence of each element, tracking the set of elements already seen. -/
def uniqueFirstAux (seen : List Nat) : List Nat → List Nat
  | [] => []
  | x :: xs => if x ∈ seen then uniqueFirstAux seen xs else x :: uniqueFirstAux (x :: seen) xs

/-- `itertools`' `.unique()` adaptor: deduplicate, keeping first occurrences. -/
def uniqueFirst (l : List Nat) : List Nat := uniqueFirstAux [] l

/-- `aggregate_classes`: all class hashes referenced by a state update —
the deployed contracts' class hashes chained with the declared classes'
class hashes, run through `.unique()`. -/
def aggregate_classes (state_update : StateUpdate) : List Nat :=
  uniqueFirst
    (state_update.state_diff.deployed_contracts.map DeployedContract.class_hash
      ++ state_update.state_diff.declared_classes.map DeclaredContract.class_hash)

/-- The class-storage view behind `overrides.for_schema_version(..)
.contract_class_by_class_hash(block_hash_substrate, class_hash)`: given a
substrate block hash and a class hash, `some` iff the class is stored
locally. -/
def ClassStore : Type := Nat → Nat → Option Unit

/-- `is_missing_class`: a class is missing when the local lookup at the
given substrate block hash returns `None`. -/
def is_missing_class (store : ClassStore) (block_hash_substrate : Nat) (class_hash : Nat) : Bool :=
  (store block_hash_substrate class_hash).isNone

/-- `fetch_missing_classes`: the referenced class hashes not stored in the
local substrate db at `block_hash_substrate`. -/
def fetch_missing_classes (state_update : StateUpdate) (store : ClassStore)
    (block_hash_substrate : Nat) : List Nat :=
  (aggregate_classes state_update).filter
    (fun class_hash => is_missing_class store block_hash_substrate class_hash)

/-- `block_hash_madara`: `state_update.block_hash.unwrap()`; `none` models
the panic on a pending (hash-less) state update. -/
def block_hash_madara (state_update : StateUpdate) : Option Nat :=
  state_update.block_hash

/-- `download_class` resolved against a download oracle
`dl class_hash block_hash`: on success the task yields
`ContractClassData { hash := class_hash, contract_class := payload }`. -/
def download_class (dl : Nat → Nat → Except String Nat) (class_hash : Nat) (block_hash : Nat) :
    Except String ContractClassData :=
  match dl class_hash block_hash with
  | .error e => .error e
  | .ok payload => .ok ⟨class_hash, payload⟩

/-- The spawn fold of `fetch_class_update`: one `download_class` task per
missing class, each anchored at `block_hash_madara state_update`
(evaluated per spawn, so it panics — `none` — iff the hash is absent and at
least one class must be downloaded). -/
def spawn_class_tasks (dl : Nat → Nat → Except String Nat) (state_update : StateUpdate) :
    List Nat → Option (List (Except String ContractClassData))
  | [] => some []
  | class_hash :: rest =>
    match block_hash_madara state_update with
    | none => none
    | some bh =>
      match spawn_class_tasks dl state_update rest with
      | none => none
      | some tasks => some (download_class dl class_hash bh :: tasks)

/-- The `while let Some(res) = task_set.join_next()` drain of
`fetch_class_update`: collect successful downloads; at the first error,
abort all outstanding tasks (the remainder of the list is not consumed)
and return that error. -/
def drain_class_tasks : List (Except String ContractClassData) →
    Except String (List ContractClassData)
  | [] => .ok []
  | .ok contract :: rest =>
    match drain_class_tasks rest with
    | .ok classes => .ok (contract :: classes)
    | .error e => .error e
  | .error e :: _ => .error e

/-- Example: a duplicate class hash across deployed and declared lists is
returned once. -/
example :
    aggregate_classes
      { block_hash := some 1, old_root := 0, new_root := 0,
        state_diff :=
          { deployed_contracts := [⟨5, 0xB⟩], declared_classes := [⟨0xB, 9⟩],
            storage_diffs := [], nonces := [] } } = [0xB] := by decide

example :
    drain_class_tasks [.ok ⟨1, 0⟩, .error "boom", .ok ⟨2, 0⟩] = .error "boom" := rfl

/-- The fixed collaborators of one `sync` run: the root computation, the
substrate client's hash lookup, the class store, the local best hash and
the hash conversion of `update_starknet_data`. -/
structure SyncEnv where
  /-- Modelled from the spec: `build_commitment_state_diff` composed with
  `update_state_root` (crate `mc-sync` commitments, not under `src/`).
  Per the spec the state-commitment engine returns the global root a
  reference implementation would compute for the state diff on the
  current tries, given the height and the optional substrate block hash
  used as commit identifier; it is a function of those inputs only (in
  particular it does not read `new_root` or `block_hash`). -/
  root_fn : StateDiff → Nat → Option Nat → Nat
  /-- `block_hash_substrate`'s backend: `client.hash(n)` as substrate
  block-number → block-hash lookup (the source's `.unwrap()` on the db
  error is elided: the lookup is modelled as total). -/
  client_hash : Nat → Option Nat
  /-- Local class storage view (`overrides`). -/
  class_store : ClassStore
  /-- `client.info().best_hash`. -/
  hash_best : Nat
  /-- `<B as BlockT>::Hash::from_str(&hash_current.to_string()).unwrap_or(Default::default())`:
  the total conversion from a gateway field element to a substrate hash,
  with the `unwrap_or(default)` folded in. -/
  conv : Nat → Nat

/-- `block_hash_substrate`: substrate block hash for a block number, from
the rpc client. -/
def block_hash_substrate (env : SyncEnv) (block_number : Nat) : Option Nat :=
  env.client_hash block_number

/-- The oracle for one iteration of the `sync` loop: the outcome of every
remote interaction the iteration may perform. -/
structure IterOutcome where
  /-- Whether the 1-second tip-observer timer fired at the top of the iteration. -/
  to_fires : Bool
  /-- `provider.get_block(BlockId::Pending)` in `update_starknet_data`. -/
  pending_fetch : Except String PendingBlockData
  /-- `provider.get_state_update(BlockId::Pending)` in `update_starknet_data`
  (converted payload, opaque). -/
  pending_su_fetch : Except String Nat
  /-- `client.get_block(BlockId::Number(n))` in `fetch_block` (converted block, opaque). -/
  block_fetch : Except String Nat
  /-- Whether `block_sender.send` succeeds (the sink is open). -/
  block_send_ok : Bool
  /-- `provider.get_state_update(BlockId::Number(n))` in `fetch_state_update`. -/
  state_fetch : Except String StateUpdate
  /-- Per-class download outcome: `provider.get_class(Hash bh, class_hash)`
  plus the blockifier conversion, as in `download_class`. -/
  class_dl : Nat → Nat → Except String Nat
  /-- Whether `state_update_sender.send` succeeds. -/
  su_send_ok : Bool
  /-- Whether `class_sender.send` succeeds. -/
  cls_send_ok : Bool
  /-- Whether `cmds.try_send(EngineCommand::SealNewBlock { .. })` succeeds
  (its failure is an `unwrap` panic in `create_block`). -/
  try_send_ok : Bool
  /-- The consensus engine's one-shot reply: the created block hash, or a
  seal failure. -/
  seal_reply : Except String Nat

/-- The local state of `sync` plus all its observable effects: the loop
locals (`current_block_number`, `got_block`, `got_state_update`,
`last_block_hash`), the four global observation slots, and the messages
dispatched so far on the three downstream channels. -/
structure SyncState where
  current_block_number : Nat
  got_block : Bool
  got_state_update : Bool
  last_block_hash : Option Nat
  slots : Slots
  sent_blocks : List Nat
  sent_state_updates : List StateUpdate
  sent_class_updates : List (List ContractClassData)
deriving DecidableEq, Repr

/-- `update_l2`: overwrite the `STARKNET_STATE_UPDATE` slot with the
latest verified state. -/
def update_l2 (state_update : L2StateUpdate) (slots : Slots) : Slots :=
  { slots with starknet_state_update := state_update }

/-- `verify_l2`: build the commitment state diff, compute the new state
root, read `state_update.block_hash` (the `expect` panics — `none` — when
it is absent), and publish the verified tip via `update_l2`.  The body has
no error path: it returns `Ok(())` on every completed execution. -/
def verify_l2 (root_fn : StateDiff → Nat → Option Nat → Nat) (block_number : Nat)
    (state_update : StateUpdate) (substrate_block_hash : Option Nat) (slots : Slots) :
    Option (Except String Unit × Slots) :=
  let state_root := root_fn state_update.state_diff block_number substrate_block_hash
  match state_update.block_hash with
  | none => none
  | some block_hash =>
    some (.ok (),
      update_l2
        { block_number := block_number, global_root := state_root, block_hash := block_hash }
        slots)

/-- `fetch_state_update`: get the state update for the height from the
gateway, then verify it with `verify_l2` anchored at the substrate hash of
`block_number - 1` (`Nat` subtraction; the height-0 underflow of the `u64`
is not reachable from the loop, whose genesis path is separate). -/
def fetch_state_update (env : SyncEnv) (o : IterOutcome) (block_number : Nat) (slots : Slots) :
    Option (Except String StateUpdate × Slots) :=
  match o.state_fetch with
  | .error e => some (.error ("failed to get state update: " ++ e), slots)
  | .ok state_update =>
    match verify_l2 env.root_fn block_number state_update
        (block_hash_substrate env (block_number - 1)) slots with
    | none => none
    | some (.error e, slots1) => some (.error e, slots1)
    | some (.ok (), slots1) => some (.ok state_update, slots1)

/-- The missing-class set of `fetch_class_update`: filtered against the
local store when a substrate anchor hash for the height exists, the whole
candidate set otherwise (cold start). -/
def missing_classes_for (env : SyncEnv) (state_update : StateUpdate) (block_number : Nat) :
    List Nat :=
  match block_hash_substrate env block_number with
  | some bh => fetch_missing_classes state_update env.class_store bh
  | none => aggregate_classes state_update

/-- `fetch_class_update`: determine the missing classes, spawn one
download task per class (anchored at `block_hash_madara`), and drain the
join set with fail-fast abort.  `none` models the `unwrap` panic of
`block_hash_madara` (reached only when at least one task is spawned). -/
def fetch_class_update (env : SyncEnv) (o : IterOutcome) (state_update : StateUpdate)
    (block_number : Nat) : Option (Except String (List ContractClassData)) :=
  match spawn_class_tasks o.class_dl state_update
      (missing_classes_for env state_update block_number) with
  | none => none
  | some tasks => some (drain_class_tasks tasks)

/-- `fetch_state_and_class_update`: state-update fetch + verification,
class-gap resolution + download, then dispatch of the state update and of
the class batch, in that order.  Any failure short-circuits; the dispatch
lists record what actually reached the sinks. -/
def fetch_state_and_class_update (env : SyncEnv) (o : IterOutcome) (block_number : Nat)
    (s : SyncState) : Option (Except String Unit × SyncState) :=
  match fetch_state_update env o block_number s.slots with
  | none => none
  | some (.error e, slots1) => some (.error e, { s with slots := slots1 })
  | some (.ok state_update, slots1) =>
    let s1 := { s with slots := slots1 }
    match fetch_class_update env o state_update block_number with
    | none => none
    | some (.error e) => some (.error e, s1)
    | some (.ok classes) =>
      if o.su_send_ok then
        let s2 := { s1 with sent_state_updates := s1.sent_state_updates ++ [state_update] }
        if o.cls_send_ok then
          some (.ok (), { s2 with sent_class_updates := s2.sent_class_updates ++ [classes] })
        else some (.error "failed to dispatch class update", s2)
      else some (.error "failed to dispatch state update", s1)

/-- `fetch_block`: get the block for the height from the gateway, convert
it, and send it on the block channel. -/
def fetch_block (o : IterOutcome) (s : SyncState) : Except String Unit × SyncState :=
  match o.block_fetch with
  | .error e => (.error ("failed to get block: " ++ e), s)
  | .ok block =>
    if o.block_send_ok then (.ok (), { s with sent_blocks := s.sent_blocks ++ [block] })
    else (.error "failed to dispatch block", s)

/-- `create_block`: `try_send` the seal command (its `unwrap` panic is
`none`), await the one-shot reply, and store the produced hash as the last
parent hash. -/
def create_block (o : IterOutcome) (parent_hash : Option Nat) :
    Option (Except String Unit × Option Nat) :=
  if o.try_send_ok then
    match o.seal_reply with
    | .error e => some (.error ("failed to seal block: " ++ e), parent_hash)
    | .ok h => some (.ok (), some h)
  else none

/-- `update_starknet_data`: fetch the pending block; on missing
`block_number` return an error (`ok_or`); compute the highest-known height
as the `u64` wrapping `block_number - 1`; when the local best hash equals
the converted parent hash, also fetch the pending state update and store
both pending slots; finally store the highest-known pair. -/
def update_starknet_data (env : SyncEnv) (o : IterOutcome) (slots : Slots) :
    Except String Unit × Slots :=
  match o.pending_fetch with
  | .error e => (.error ("Failed to get pending block: " ++ e), slots)
  | .ok block =>
    let hash_current := block.parent_block_hash
    let tmp := env.conv hash_current
    match block.block_number with
    | none => (.error "block number not found", slots)
    | some bn =>
      let number := (bn + (U64_MOD - 1)) % U64_MOD
      if env.hash_best = tmp then
        match o.pending_su_fetch with
        | .error e => (.error ("Failed to get pending state update: " ++ e), slots)
        | .ok pending_su =>
          (.ok (),
            { slots with
                pending_block := some block.payload
                pending_state_update := some pending_su
                highest_block_hash_and_number := (hash_current, number) })
      else (.ok (), { slots with highest_block_hash_and_number := (hash_current, number) })

/-- Result of one iteration of the `sync` loop body. -/
inductive StepResult where
  /-- The loop continues with this state (including the post-failure
  10-second sleep paths). -/
  | continued (s : SyncState)
  /-- The loop returned (`create_block` failed). -/
  | terminated (s : SyncState)
  /-- A panic (`expect` / `unwrap`) aborted the task. -/
  | panicked
  /-- The `(true, true) => unreachable!()` branch was hit. -/
  | unreachableHit
deriving DecidableEq, Repr

/-- The state reached by a non-panicking step. -/
def stepState : StepResult → Option SyncState
  | .continued s => some s
  | .terminated s => some s
  | .panicked => none
  | .unreachableHit => none

/-- The tail of a `sync` loop iteration after the two fetch results are
in: update the memoization flags, and either seal a new block (advancing
the height and resetting the flags on success, returning on failure) or
sleep and retry. -/
def sync_decision (o : IterOutcome) (block_res su_res : Except String Unit) (s : SyncState) :
    StepResult :=
  let s1 := { s with
    got_block := s.got_block || exceptIsOk block_res
    got_state_update := s.got_state_update || exceptIsOk su_res }
  match block_res, su_res with
  | .ok _, .ok _ =>
    match create_block o s1.last_block_hash with
    | none => .panicked
    | some (.ok _, parent) =>
      .continued { s1 with
        current_block_number := s1.current_block_number + 1
        got_block := false
        got_state_update := false
        last_block_hash := parent }
    | some (.error _, parent) => .terminated { s1 with last_block_hash := parent }
  | .error _, .ok _ => .continued s1
  | _, .error _ => .continued s1

/-- The decision table of a `sync` loop iteration: dispatch on
`(got_block, got_state_update)`, run the corresponding fetches, then
`sync_decision`. -/
def sync_step_core (env : SyncEnv) (o : IterOutcome) (s : SyncState) : StepResult :=
  match s.got_block, s.got_state_update with
  | false, false =>
    match fetch_state_and_class_update env o s.current_block_number (fetch_block o s).2 with
    | none => .panicked
    | some (su_res, s2) => sync_decision o (fetch_block o s).1 su_res s2
  | false, true => sync_decision o (fetch_block o s).1 (.ok ()) (fetch_block o s).2
  | true, false =>
    match fetch_state_and_class_update env o s.current_block_number s with
    | none => .panicked
    | some (su_res, s1) => sync_decision o (.ok ()) su_res s1
  | true, true => .unreachableHit

/-- One iteration of the `sync` loop: run the tip-observer tick when the
1-second timer fired (errors swallowed by the `if let Err` arm), then the
decision table. -/
def sync_step (env : SyncEnv) (o : IterOutcome) (s : SyncState) : StepResult :=
  sync_step_core env o
    (if o.to_fires then { s with slots := (update_starknet_data env o s.slots).2 } else s)

/-- Outcome of running the `sync` loop for a bounded number of iterations. -/
inductive RunResult where
  /-- Fuel exhausted while the loop was still running. -/
  | running (s : SyncState)
  /-- The loop returned. -/
  | stopped (s : SyncState)
  /-- A panic aborted the task. -/
  | crashed
  /-- The `unreachable!()` branch was hit. -/
  | unreachable
deriving DecidableEq, Repr

/-- Run the `sync` loop for `fuel` iterations, drawing the iteration `i`
oracle from `outs i`. -/
def sync_run (env : SyncEnv) (outs : Nat → IterOutcome) : Nat → Nat → SyncState → RunResult
  | _, 0, s => .running s
  | i, fuel + 1, s =>
    match sync_step env (outs i) s with
    | .continued s1 => sync_run env outs (i + 1) fuel s1
    | .terminated s1 => .stopped s1
    | .panicked => .crashed
    | .unreachableHit => .unreachable

/-! ## Specification-side definitions and helper lemmas -/

/-- The candidate set as the spec words it: fold the union of the
deployed-contract class hashes and the declared-class class hashes,
keeping each hash only at its first occurrence (deduplicated, first-seen
order). -/
def specCandidates (state_update : StateUpdate) : List Nat :=
  (state_update.state_diff.deployed_contracts.map DeployedContract.class_hash
      ++ state_update.state_diff.declared_classes.map DeclaredContract.class_hash).foldl
    (fun acc x => if x ∈ acc then acc else acc ++ [x]) []

theorem foldl_firstSeen_eq (l : List Nat) : ∀ acc seen : List Nat,
    (∀ x, x ∈ seen ↔ x ∈ acc) →
    l.foldl (fun acc x => if x ∈ acc then acc else acc ++ [x]) acc =
      acc ++ uniqueFirstAux seen l := by
  induction l with
  | nil => intro acc seen _; simp [uniqueFirstAux]
  | cons y l ih =>
    intro acc seen h
    by_cases hy : y ∈ seen
    · have hy2 : y ∈ acc := (h y).1 hy
      simp only [List.foldl_cons, if_pos hy2, uniqueFirstAux, if_pos hy]
      exact ih acc seen h
    · have hy2 : y ∉ acc := fun hc => hy ((h y).2 hc)
      simp only [List.foldl_cons, if_neg hy2, uniqueFirstAux, if_neg hy]
      have hinv : ∀ x, x ∈ y :: seen ↔ x ∈ acc ++ [y] := by
        intro x
        constructor
        · intro hx
          rcases List.mem_cons.1 hx with rfl | hx
          · exact List.mem_append.2 (Or.inr (List.mem_singleton.2 rfl))
          · exact List.mem_append.2 (Or.inl ((h x).1 hx))
        · intro hx
          rcases List.mem_append.1 hx with hx | hx
          · exact List.mem_cons_of_mem y ((h x).2 hx)
          · have hxy := List.mem_singleton.1 hx
            subst hxy
            exact List.mem_cons_self x seen
      rw [ih (acc ++ [y]) (y :: seen) hinv, List.append_assoc]
      simp

theorem uniqueFirst_eq_foldl (l : List Nat) :
    l.foldl (fun acc x => if x ∈ acc then acc else acc ++ [x]) [] = uniqueFirst l := by
  have h := foldl_firstSeen_eq l [] [] (by simp)
  simpa [uniqueFirst] using h

theorem spawn_class_tasks_some (dl : Nat → Nat → Except String Nat)
    (state_update : StateUpdate) (bh : Nat) (h : state_update.block_hash = some bh) :
    ∀ missing : List Nat,
      spawn_class_tasks dl state_update missing =
        some (missing.map (fun class_hash => download_class dl class_hash bh)) := by
  intro missing
  induction missing with
  | nil => rfl
  | cons c rest ih => simp [spawn_class_tasks, block_hash_madara, h, ih]

theorem drain_class_tasks_error (tasks : List (Except String ContractClassData))
    (e : String) (h : Except.error e ∈ tasks) :
    ∃ e1, drain_class_tasks tasks = .error e1 := by
  induction tasks with
  | nil => cases h
  | cons t rest ih =>
    rcases List.mem_cons.1 h with rfl | hmem
    · exact ⟨e, rfl⟩
    · cases t with
      | error e2 => exact ⟨e2, rfl⟩
      | ok c =>
        rcases ih hmem with ⟨e1, he1⟩
        exact ⟨e1, by simp [drain_class_tasks, he1]⟩

/-! ## Test fixtures used by witnesses and counterexamples -/

/-- Observation slots in their start-of-process state. -/
def slotsInit : Slots :=
  { starknet_state_update := ⟨0, 0, 0⟩
    highest_block_hash_and_number := (0, 0)
    pending_block := none
    pending_state_update := none }

/-- An environment with no substrate anchor hash (cold start) and an empty
class store. -/
def envCold : SyncEnv :=
  { root_fn := fun _ _ _ => 0
    client_hash := fun _ => none
    class_store := fun _ _ => none
    hash_best := 0
    conv := fun h => h }

/-- A state update deploying classes `0xA`, `0xB` and declaring `0xB` again. -/
def suTest : StateUpdate :=
  { block_hash := some 11
    old_root := 0
    new_root := 5
    state_diff :=
      { deployed_contracts := [⟨1, 0xA⟩, ⟨2, 0xB⟩]
        declared_classes := [⟨0xB, 7⟩]
        storage_diffs := []
        nonces := [] } }

/-! ## C7 — class-gap resolver candidate set -/

/-- C7: the class-gap resolver's candidate set is the deduplicated union
of the class hashes of `deployed_contracts` and `declared_classes` in
first-seen order; with a local anchor block hash it is filtered by
`is_missing_class` at that anchor, and with no anchor the entire candidate
set is returned. -/
theorem c7_class_gap_candidate_set (env : SyncEnv) (state_update : StateUpdate)
    (block_number : Nat) :
    aggregate_classes state_update = specCandidates state_update
    ∧ (∀ bh, block_hash_substrate env block_number = some bh →
        missing_classes_for env state_update block_number =
          (aggregate_classes state_update).filter
            (fun class_hash => is_missing_class env.class_store bh class_hash))
    ∧ (block_hash_substrate env block_number = none →
        missing_classes_for env state_update block_number = aggregate_classes state_update) := by
  refine ⟨?_, ?_, ?_⟩
  · rw [aggregate_classes, specCandidates, uniqueFirst_eq_foldl]
  · intro bh h
    simp [missing_classes_for, h, fetch_missing_classes]
  · intro h
    simp [missing_classes_for, h]

/-- C7 witness: concrete evaluation on `envCold` (no anchor) and `suTest`
(duplicate hash `0xB`). -/
theorem c7_class_gap_candidate_set_witness :
    missing_classes_for envCold suTest 4 = aggregate_classes suTest
    ∧ aggregate_classes suTest = specCandidates suTest
    ∧ aggregate_classes suTest = [0xA, 0xB] :=
  ⟨(c7_class_gap_candidate_set envCold suTest 4).2.2 rfl,
   (c7_class_gap_candidate_set envCold suTest 4).1, by decide⟩

/-! ## C2 — what the verified-tip slot holds after verification -/

/-- Whatever function of the state diff, the height and the anchor hash
the state-commitment engine computes, there is a state update for which
the published `global_root` differs from `state_update.new_root` —
`verify_l2` stores the computed root and never reads `new_root`. -/
theorem verified_tip_root_independent :
    ∀ root_fn : StateDiff → Nat → Option Nat → Nat,
      ∃ su : StateUpdate, ∃ slots1 : Slots,
        verify_l2 root_fn 0 su none slotsInit = some (.ok (), slots1)
        ∧ slots1.starknet_state_update.block_number = 0
        ∧ slots1.starknet_state_update.global_root ≠ su.new_root := by
  intro root_fn
  refine ⟨{ block_hash := some 0, old_root := 0,
            new_root := root_fn ⟨[], [], [], []⟩ 0 none + 1,
            state_diff := ⟨[], [], [], []⟩ }, _, rfl, rfl, ?_⟩
  exact Nat.ne_of_lt (Nat.lt_succ_self _)

/-- C2 counterexample: it is not the case that every successful
verification publishes a `global_root` equal to `state_update.new_root` —
refuted at height 0, the empty state diff, a root function returning 0 and
a state update claiming `new_root = 1`. -/
theorem c2_counterexample :
    ¬ ∀ (root_fn : StateDiff → Nat → Option Nat → Nat) (su : StateUpdate) (slots1 : Slots),
        verify_l2 root_fn 0 su none slotsInit = some (.ok (), slots1) →
        slots1.starknet_state_update.global_root = su.new_root := by
  intro hall
  have h := hall (fun _ _ _ => 0)
    { block_hash := some 0, old_root := 0, new_root := 1, state_diff := ⟨[], [], [], []⟩ }
    (update_l2 { block_number := 0, global_root := 0, block_hash := 0 } slotsInit) rfl
  exact absurd h (by decide)

/-- C2 (amended): for every state update carrying a block hash, `verify_l2`
publishes to the verified-tip slot the height, the root computed by the
state-commitment engine from the state diff (not cross-checked against
`new_root`), and `state_update.block_hash`. -/
theorem c2_verified_tip_holds_computed_root (root_fn : StateDiff → Nat → Option Nat → Nat)
    (block_number : Nat) (state_update : StateUpdate) (anchor : Option Nat) (slots : Slots)
    (bh : Nat) (h : state_update.block_hash = some bh) :
    ∃ slots1,
      verify_l2 root_fn block_number state_update anchor slots = some (.ok (), slots1)
      ∧ slots1.starknet_state_update.block_number = block_number
      ∧ slots1.starknet_state_update.global_root =
          root_fn state_update.state_diff block_number anchor
      ∧ slots1.starknet_state_update.block_hash = bh := by
  refine ⟨update_l2
      { block_number := block_number
        global_root := root_fn state_update.state_diff block_number anchor
        block_hash := bh } slots, ?_, rfl, rfl, rfl⟩
  simp [verify_l2, h]

/-- C2 witness: the amended theorem evaluated at `suTest` and a constant
root function. -/
theorem c2_verified_tip_holds_computed_root_witness :
    ∃ slots1,
      verify_l2 (fun _ _ _ => 0) 3 suTest none slotsInit = some (.ok (), slots1)
      ∧ slots1.starknet_state_update.block_number = 3
      ∧ slots1.starknet_state_update.global_root = 0
      ∧ slots1.starknet_state_update.block_hash = 11 :=
  c2_verified_tip_holds_computed_root (fun _ _ _ => 0) 3 suTest none slotsInit 11 rfl

/-! ## C6 — error signalling of the verification wrapper -/

/-- C6 counterexample: no input whatsoever makes `verify_l2` return an
error — in particular a trie-operation failure inside the root computation
is never surfaced as a `VerificationFailed` result. -/
theorem c6_counterexample :
    ¬ ∃ (root_fn : StateDiff → Nat → Option Nat → Nat) (block_number : Nat)
        (state_update : StateUpdate) (anchor : Option Nat) (slots slots1 : Slots) (e : String),
        verify_l2 root_fn block_number state_update anchor slots = some (.error e, slots1) := by
  rintro ⟨root_fn, n, su, anchor, slots, slots1, e, h⟩
  rcases hbh : su.block_hash with _ | bh <;> simp [verify_l2, hbh] at h

/-- C6 (amended): `verify_l2` has no error path: every completed execution
returns `Ok(())` (when the state update has no block hash it panics
instead); it never returns a `VerificationFailed` error. -/
theorem c6_verify_l2_never_errors (root_fn : StateDiff → Nat → Option Nat → Nat)
    (block_number : Nat) (state_update : StateUpdate) (anchor : Option Nat) (slots : Slots) :
    verify_l2 root_fn block_number state_update anchor slots = none
    ∨ ∃ slots1, verify_l2 root_fn block_number state_update anchor slots =
        some (.ok (), slots1) := by
  rcases hbh : state_update.block_hash with _ | bh
  · exact Or.inl (by simp [verify_l2, hbh])
  · exact Or.inr ⟨update_l2
      { block_number := block_number
        global_root := root_fn state_update.state_diff block_number anchor
        block_hash := bh } slots, by simp [verify_l2, hbh]⟩

/-! ## C9 — verification requires a block hash -/

/-- C9: `verify_l2` unconditionally unwraps `state_update.block_hash`
(panicking — `none` — when it is absent), as does `block_hash_madara`;
with a block hash present the verification path is total. -/
theorem c9_verify_requires_block_hash (root_fn : StateDiff → Nat → Option Nat → Nat)
    (block_number : Nat) (state_update : StateUpdate) (anchor : Option Nat) (slots : Slots) :
    (state_update.block_hash = none →
      verify_l2 root_fn block_number state_update anchor slots = none
      ∧ block_hash_madara state_update = none)
    ∧ (∀ bh, state_update.block_hash = some bh →
        (verify_l2 root_fn block_number state_update anchor slots).isSome = true) := by
  constructor
  · intro h
    exact ⟨by simp [verify_l2, h], by simp [block_hash_madara, h]⟩
  · intro bh h
    simp [verify_l2, h]

/-- C9 witness: a pending (hash-less) state update makes `verify_l2` and
`block_hash_madara` panic; `suTest` (hash present) verifies totally. -/
theorem c9_verify_requires_block_hash_witness :
    (verify_l2 (fun _ _ _ => 0) 3 { suTest with block_hash := none } none slotsInit = none
      ∧ block_hash_madara { suTest with block_hash := none } = none)
    ∧ (verify_l2 (fun _ _ _ => 0) 3 suTest none slotsInit).isSome = true :=
  ⟨(c9_verify_requires_block_hash (fun _ _ _ => 0) 3 { suTest with block_hash := none }
      none slotsInit).1 rfl,
   (c9_verify_requires_block_hash (fun _ _ _ => 0) 3 suTest none slotsInit).2 11 rfl⟩

/-! ## C4 — fail-fast, all-or-nothing class batch -/

/-- C4: if any single class download task for a height errors, the
class-update phase (`fetch_class_update`) returns an error — the drain
loop aborts all outstanding downloads at the first failure — and
`fetch_state_and_class_update` dispatches neither the state update nor any
class of this height. -/
theorem c4_class_batch_all_or_nothing (env : SyncEnv) (o : IterOutcome) (block_number : Nat)
    (s : SyncState) (state_update : StateUpdate) (bh ch : Nat) (e : String)
    (hsf : o.state_fetch = .ok state_update)
    (hbh : state_update.block_hash = some bh)
    (hch : ch ∈ missing_classes_for env state_update block_number)
    (hdl : o.class_dl ch bh = .error e) :
    (∃ e2, fetch_class_update env o state_update block_number = some (.error e2))
    ∧ ∃ e1 s1,
        fetch_state_and_class_update env o block_number s = some (.error e1, s1)
        ∧ s1.sent_state_updates = s.sent_state_updates
        ∧ s1.sent_class_updates = s.sent_class_updates := by
  have hdc : download_class o.class_dl ch bh = .error e := by simp [download_class, hdl]
  have hmem : (Except.error e : Except String ContractClassData) ∈
      (missing_classes_for env state_update block_number).map
        (fun class_hash => download_class o.class_dl class_hash bh) :=
    List.mem_map.2 ⟨ch, hch, hdc⟩
  rcases drain_class_tasks_error _ e hmem with ⟨e2, hd⟩
  have hfcu : fetch_class_update env o state_update block_number = some (.error e2) := by
    simp [fetch_class_update, spawn_class_tasks_some o.class_dl state_update bh hbh, hd]
  have hfsu : fetch_state_update env o block_number s.slots =
      some (.ok state_update,
        update_l2
          { block_number := block_number
            global_root := env.root_fn state_update.state_diff block_number
                (block_hash_substrate env (block_number - 1))
            block_hash := bh } s.slots) := by
    simp [fetch_state_update, hsf, verify_l2, hbh]
  have hstep : fetch_state_and_class_update env o block_number s =
      some (.error e2,
        { s with
            slots := update_l2
                       { block_number := block_number
                         global_root := env.root_fn state_update.state_diff block_number
                             (block_hash_substrate env (block_number - 1))
                         block_hash := bh } s.slots }) := by
    simp [fetch_state_and_class_update, hfsu, hfcu]
  exact ⟨⟨e2, hfcu⟩, e2, _, hstep, rfl, rfl⟩

/-- An iteration oracle whose download of class `0xB` fails while the rest
of the state-update chain succeeds. -/
def outDlFail : IterOutcome :=
  { to_fires := false
    pending_fetch := .error "e"
    pending_su_fetch := .error "e"
    block_fetch := .ok 42
    block_send_ok := true
    state_fetch := .ok suTest
    class_dl := fun class_hash _ =>
      if class_hash = 0xB then .error "class download failed" else .ok 1
    su_send_ok := true
    cls_send_ok := true
    try_send_ok := true
    seal_reply := .ok 7 }

/-- The `sync` loop state at the start of an iteration for height 3, with
nothing dispatched yet. -/
def stateInit : SyncState :=
  { current_block_number := 3
    got_block := false
    got_state_update := false
    last_block_hash := none
    slots := slotsInit
    sent_blocks := []
    sent_state_updates := []
    sent_class_updates := [] }

/-- C4 witness: with the download of class `0xB` failing, the class phase
errors and nothing is dispatched. -/
theorem c4_class_batch_all_or_nothing_witness :
    (∃ e2, fetch_class_update envCold outDlFail suTest 3 = some (.error e2))
    ∧ ∃ e1 s1,
        fetch_state_and_class_update envCold outDlFail 3 stateInit = some (.error e1, s1)
        ∧ s1.sent_state_updates = stateInit.sent_state_updates
        ∧ s1.sent_class_updates = stateInit.sent_class_updates :=
  c4_class_batch_all_or_nothing envCold outDlFail 3 stateInit suTest 11 0xB
    "class download failed" rfl rfl (by decide) rfl

/-! ## C8 / C10 — tip observer -/

theorem update_starknet_data_not_caught_up (env : SyncEnv) (o : IterOutcome) (slots : Slots)
    (pb : PendingBlockData) (bn : Nat)
    (hpf : o.pending_fetch = .ok pb)
    (hbn : pb.block_number = some bn)
    (hne : env.hash_best ≠ env.conv pb.parent_block_hash) :
    update_starknet_data env o slots =
      (.ok (), { slots with highest_block_hash_and_number :=
          (pb.parent_block_hash, (bn + (U64_MOD - 1)) % U64_MOD) }) := by
  simp [update_starknet_data, hpf, hbn, hne]

theorem u64_wrap_zero : (0 + (U64_MOD - 1)) % U64_MOD = U64_MOD - 1 := by
  have hm : U64_MOD = 18446744073709551616 := by norm_num [U64_MOD]
  rw [hm]

theorem u64_sub_one_eq (bn : Nat) (h1 : 1 ≤ bn) (h2 : bn < U64_MOD) :
    (bn + (U64_MOD - 1)) % U64_MOD = bn - 1 := by
  have hm : U64_MOD = 18446744073709551616 := by norm_num [U64_MOD]
  rw [hm] at h2 ⊢
  omega

/-- C10: the tip observer computes the highest-known height as
`block_number - 1` on `u64` without a guard: a missing `block_number` is a
non-fatal error leaving the slots unchanged, `block_number = 0` wraps
around to `2^64 - 1`, and for `block_number ≥ 1` the height is
`block_number - 1`. -/
theorem c10_tip_observer_underflow (env : SyncEnv) (o : IterOutcome) (slots : Slots)
    (pb : PendingBlockData) (hpf : o.pending_fetch = .ok pb) :
    (pb.block_number = none →
      update_starknet_data env o slots = (.error "block number not found", slots))
    ∧ (env.hash_best ≠ env.conv pb.parent_block_hash →
        (pb.block_number = some 0 →
          update_starknet_data env o slots =
            (.ok (), { slots with highest_block_hash_and_number :=
                (pb.parent_block_hash, U64_MOD - 1) }))
        ∧ ∀ bn, pb.block_number = some bn → 1 ≤ bn → bn < U64_MOD →
            update_starknet_data env o slots =
              (.ok (), { slots with highest_block_hash_and_number :=
                  (pb.parent_block_hash, bn - 1) })) := by
  constructor
  · intro h
    simp [update_starknet_data, hpf, h]
  · intro hne
    constructor
    · intro h0
      have h := update_starknet_data_not_caught_up env o slots pb 0 hpf h0 hne
      rwa [u64_wrap_zero] at h
    · intro bn hbn hge hlt
      have h := update_starknet_data_not_caught_up env o slots pb bn hpf hbn hne
      rwa [u64_sub_one_eq bn hge hlt] at h

/-- C8: when the tip-observer fetch succeeds but the local best hash
differs from the pending block's parent hash, only the highest-known slot
is written — to `(pending.parent_block_hash, pending.block_number - 1)` —
while the pending-block, pending-state-update and verified-tip slots keep
their previous values. -/
theorem c8_tip_observer_catch_up_gate (env : SyncEnv) (o : IterOutcome) (slots : Slots)
    (pb : PendingBlockData) (bn : Nat)
    (hpf : o.pending_fetch = .ok pb)
    (hbn : pb.block_number = some bn) (h1 : 1 ≤ bn) (h2 : bn < U64_MOD)
    (hne : env.hash_best ≠ env.conv pb.parent_block_hash) :
    update_starknet_data env o slots =
      (.ok (), { slots with highest_block_hash_and_number := (pb.parent_block_hash, bn - 1) })
    ∧ (update_starknet_data env o slots).2.pending_block = slots.pending_block
    ∧ (update_starknet_data env o slots).2.pending_state_update = slots.pending_state_update
    ∧ (update_starknet_data env o slots).2.starknet_state_update =
        slots.starknet_state_update := by
  have h := update_starknet_data_not_caught_up env o slots pb bn hpf hbn hne
  rw [u64_sub_one_eq bn h1 h2] at h
  exact ⟨h, by rw [h], by rw [h], by rw [h]⟩

/-- A pending block whose parent hash (77) differs from the cold
environment's best hash (0). -/
def pbTest : PendingBlockData := { parent_block_hash := 77, block_number := some 6, payload := 3 }

/-- A tip-observer oracle returning `pbTest`. -/
def outTO : IterOutcome :=
  { to_fires := true
    pending_fetch := .ok pbTest
    pending_su_fetch := .ok 9
    block_fetch := .error "e"
    block_send_ok := true
    state_fetch := .error "e"
    class_dl := fun _ _ => .error "e"
    su_send_ok := true
    cls_send_ok := true
    try_send_ok := true
    seal_reply := .ok 7 }

/-- C8 witness: concrete catch-up-gated tick writing only the
highest-known slot. -/
theorem c8_tip_observer_catch_up_gate_witness :
    update_starknet_data envCold outTO slotsInit =
      (.ok (), { slotsInit with highest_block_hash_and_number := (77, 5) })
    ∧ (update_starknet_data envCold outTO slotsInit).2.pending_block = slotsInit.pending_block
    ∧ (update_starknet_data envCold outTO slotsInit).2.pending_state_update =
        slotsInit.pending_state_update
    ∧ (update_starknet_data envCold outTO slotsInit).2.starknet_state_update =
        slotsInit.starknet_state_update := by
  have h := c8_tip_observer_catch_up_gate envCold outTO slotsInit pbTest 6 rfl rfl
    (by norm_num) (by norm_num [U64_MOD]) (by decide)
  simpa using h

/-- A pending block reporting `block_number = 0`. -/
def pbZero : PendingBlockData := { parent_block_hash := 77, block_number := some 0, payload := 3 }

/-- A pending block with no `block_number`. -/
def pbNoNumber : PendingBlockData :=
  { parent_block_hash := 77, block_number := none, payload := 3 }

/-- A tip-observer oracle returning `pbZero`. -/
def outTOZero : IterOutcome := { outTO with pending_fetch := .ok pbZero }

/-- A tip-observer oracle returning `pbNoNumber`. -/
def outTONoNumber : IterOutcome := { outTO with pending_fetch := .ok pbNoNumber }

/-- C10 witness: a missing `block_number` yields the non-fatal error with
unchanged slots, and `block_number = 0` wraps the highest-known height to
`2^64 - 1`. -/
theorem c10_tip_observer_underflow_witness :
    update_starknet_data envCold outTONoNumber slotsInit =
      (.error "block number not found", slotsInit)
    ∧ update_starknet_data envCold outTOZero slotsInit =
        (.ok (), { slotsInit with highest_block_hash_and_number := (77, U64_MOD - 1) }) :=
  ⟨(c10_tip_observer_underflow envCold outTONoNumber slotsInit pbNoNumber rfl).1 rfl,
   ((c10_tip_observer_underflow envCold outTOZero slotsInit pbZero rfl).2 (by decide)).1 rfl⟩

/-! ## Sync-loop lemmas -/

theorem fetch_block_frame (o : IterOutcome) (s : SyncState) :
    (fetch_block o s).2.slots = s.slots
    ∧ (fetch_block o s).2.sent_state_updates = s.sent_state_updates
    ∧ (fetch_block o s).2.sent_class_updates = s.sent_class_updates
    ∧ (fetch_block o s).2.got_block = s.got_block
    ∧ (fetch_block o s).2.got_state_update = s.got_state_update
    ∧ (fetch_block o s).2.current_block_number = s.current_block_number
    ∧ (fetch_block o s).2.last_block_hash = s.last_block_hash := by
  cases hbf : o.block_fetch with
  | error e => simp [fetch_block, hbf]
  | ok b => cases hsend : o.block_send_ok <;> simp [fetch_block, hbf, hsend]

theorem fetch_block_sends (o : IterOutcome) (s : SyncState) (b : Nat)
    (hb : o.block_fetch = .ok b) (hsend : o.block_send_ok = true) :
    fetch_block o s = (.ok (), { s with sent_blocks := s.sent_blocks ++ [b] }) := by
  simp [fetch_block, hb, hsend]

theorem fetch_sacu_frame (env : SyncEnv) (o : IterOutcome) (n : Nat) (s : SyncState)
    (r : Except String Unit) (s1 : SyncState)
    (h : fetch_state_and_class_update env o n s = some (r, s1)) :
    s1.sent_blocks = s.sent_blocks
    ∧ s1.got_block = s.got_block
    ∧ s1.got_state_update = s.got_state_update
    ∧ s1.current_block_number = s.current_block_number
    ∧ s1.last_block_hash = s.last_block_hash := by
  unfold fetch_state_and_class_update at h
  repeat' split at h
  all_goals (try simp only [Option.some.injEq, Prod.mk.injEq] at h)
  all_goals (try (obtain ⟨h1, h2⟩ := h))
  all_goals (try subst h2)
  all_goals simp_all

theorem stepState_decision_frame (o : IterOutcome) (br sr : Except String Unit)
    (s s1 : SyncState) (h : stepState (sync_decision o br sr s) = some s1) :
    s1.slots = s.slots
    ∧ s1.sent_blocks = s.sent_blocks
    ∧ s1.sent_state_updates = s.sent_state_updates
    ∧ s1.sent_class_updates = s.sent_class_updates := by
  unfold sync_decision create_block at h
  repeat' split at h
  all_goals (try simp only [stepState, Option.some.injEq] at h)
  all_goals (try subst h)
  all_goals simp_all

theorem sync_decision_ne_unreachable (o : IterOutcome) (br sr : Except String Unit)
    (s : SyncState) : sync_decision o br sr s ≠ .unreachableHit := by
  unfold sync_decision create_block
  repeat' split
  all_goals simp

theorem sync_decision_terminated_seal (o : IterOutcome) (br sr : Except String Unit)
    (s s1 : SyncState) (h : sync_decision o br sr s = .terminated s1) :
    ∃ e, o.seal_reply = .error e := by
  unfold sync_decision at h
  cases br with
  | error e =>
    cases sr with
    | error e2 => simp at h
    | ok u => simp at h
  | ok u =>
    cases sr with
    | error e2 => simp at h
    | ok u2 =>
      unfold create_block at h
      cases htry : o.try_send_ok with
      | false => rw [htry] at h; simp at h
      | true =>
        rw [htry] at h
        cases hseal : o.seal_reply with
        | error e => exact ⟨e, rfl⟩
        | ok hh => rw [hseal] at h; simp at h

theorem sync_decision_continued_inv (o : IterOutcome) (br sr : Except String Unit)
    (s s1 : SyncState)
    (hb : exceptIsOk br = false → s.got_block = false)
    (hs : exceptIsOk sr = false → s.got_state_update = false)
    (h : sync_decision o br sr s = .continued s1) :
    ¬(s1.got_block = true ∧ s1.got_state_update = true) := by
  unfold sync_decision at h
  cases br with
  | error e =>
    cases sr with
    | ok u =>
      injection h with h1
      subst h1
      have hgb := hb rfl
      simp [exceptIsOk, hgb]
    | error e2 =>
      injection h with h1
      subst h1
      have hgb := hb rfl
      simp [exceptIsOk, hgb]
  | ok u =>
    cases sr with
    | error e2 =>
      injection h with h1
      subst h1
      have hgs := hs rfl
      simp [exceptIsOk, hgs]
    | ok u2 =>
      unfold create_block at h
      cases htry : o.try_send_ok with
      | false => rw [htry] at h; simp at h
      | true =>
        rw [htry] at h
        cases hseal : o.seal_reply with
        | error e => rw [hseal] at h; simp at h
        | ok hh =>
          rw [hseal] at h
          injection h with h1
          subst h1
          simp

theorem update_starknet_data_tip_frame (env : SyncEnv) (o : IterOutcome) (slots : Slots) :
    (update_starknet_data env o slots).2.starknet_state_update =
      slots.starknet_state_update := by
  unfold update_starknet_data
  cases hpf : o.pending_fetch with
  | error e => simp
  | ok block =>
    cases hbn : block.block_number with
    | none => simp [hbn]
    | some bn =>
      by_cases hc : env.hash_best = env.conv block.parent_block_hash
      · cases hsu : o.pending_su_fetch with
        | error e => simp [hbn, hc, hsu]
        | ok p => simp [hbn, hc, hsu]
      · simp [hbn, hc]

theorem sync_step_core_su_frame (env : SyncEnv) (o : IterOutcome) (s : SyncState)
    (hgb : s.got_block = false) (hgsu : s.got_state_update = true) (s1 : SyncState)
    (h : stepState (sync_step_core env o s) = some s1) :
    s1.sent_state_updates = s.sent_state_updates
    ∧ s1.sent_class_updates = s.sent_class_updates
    ∧ s1.slots = s.slots
    ∧ (∀ b, o.block_fetch = .ok b → o.block_send_ok = true →
        s1.sent_blocks = s.sent_blocks ++ [b]) := by
  simp only [sync_step_core, hgb, hgsu] at h
  have hd := stepState_decision_frame o (fetch_block o s).1 (.ok ()) (fetch_block o s).2 s1 h
  have hf := fetch_block_frame o s
  refine ⟨hd.2.2.1.trans hf.2.1, hd.2.2.2.trans hf.2.2.1, hd.1.trans hf.1, ?_⟩
  intro b hb hsend
  rw [hd.2.1, fetch_block_sends o s b hb hsend]

theorem sync_step_core_block_frame (env : SyncEnv) (o : IterOutcome) (s : SyncState)
    (hgb : s.got_block = true) (hgsu : s.got_state_update = false) (s1 : SyncState)
    (h : stepState (sync_step_core env o s) = some s1) :
    s1.sent_blocks = s.sent_blocks := by
  simp only [sync_step_core, hgb, hgsu] at h
  cases hfs : fetch_state_and_class_update env o s.current_block_number s with
  | none => rw [hfs] at h; simp [stepState] at h
  | some p =>
    obtain ⟨r, s2⟩ := p
    rw [hfs] at h
    have hd := stepState_decision_frame o (.ok ()) r s2 s1 h
    have hfr := fetch_sacu_frame env o s.current_block_number s r s2 hfs
    exact hd.2.1.trans hfr.1

theorem sync_step_core_not_unreachable (env : SyncEnv) (o : IterOutcome) (s : SyncState)
    (hinv : ¬(s.got_block = true ∧ s.got_state_update = true)) :
    sync_step_core env o s ≠ .unreachableHit := by
  by_cases hgb : s.got_block = true
  · by_cases hgsu : s.got_state_update = true
    · exact absurd ⟨hgb, hgsu⟩ hinv
    · have hgsu2 : s.got_state_update = false := by simpa using hgsu
      simp only [sync_step_core, hgb, hgsu2]
      cases hfs : fetch_state_and_class_update env o s.current_block_number s with
      | none => simp
      | some p =>
        obtain ⟨r, s2⟩ := p
        simpa using sync_decision_ne_unreachable o (.ok ()) r s2
  · have hgb2 : s.got_block = false := by simpa using hgb
    by_cases hgsu : s.got_state_update = true
    · simp only [sync_step_core, hgb2, hgsu]
      exact sync_decision_ne_unreachable o (fetch_block o s).1 (.ok ()) (fetch_block o s).2
    · have hgsu2 : s.got_state_update = false := by simpa using hgsu
      simp only [sync_step_core, hgb2, hgsu2]
      cases hfs : fetch_state_and_class_update env o s.current_block_number (fetch_block o s).2 with
      | none => simp
      | some p =>
        obtain ⟨r, s2⟩ := p
        simpa using sync_decision_ne_unreachable o (fetch_block o s).1 r s2

theorem sync_step_core_continued_inv (env : SyncEnv) (o : IterOutcome) (s s1 : SyncState)
    (hinv : ¬(s.got_block = true ∧ s.got_state_update = true))
    (h : sync_step_core env o s = .continued s1) :
    ¬(s1.got_block = true ∧ s1.got_state_update = true) := by
  by_cases hgb : s.got_block = true
  · by_cases hgsu : s.got_state_update = true
    · exact absurd ⟨hgb, hgsu⟩ hinv
    · have hgsu2 : s.got_state_update = false := by simpa using hgsu
      simp only [sync_step_core, hgb, hgsu2] at h
      cases hfs : fetch_state_and_class_update env o s.current_block_number s with
      | none => rw [hfs] at h; simp at h
      | some p =>
        obtain ⟨r, s2⟩ := p
        rw [hfs] at h
        have hfr := fetch_sacu_frame env o s.current_block_number s r s2 hfs
        refine sync_decision_continued_inv o (.ok ()) r s2 s1 ?_ ?_ h
        · intro habs; simp [exceptIsOk] at habs
        · intro _; rw [hfr.2.2.1, hgsu2]
  · have hgb2 : s.got_block = false := by simpa using hgb
    by_cases hgsu : s.got_state_update = true
    · simp only [sync_step_core, hgb2, hgsu] at h
      have hf := fetch_block_frame o s
      refine sync_decision_continued_inv o (fetch_block o s).1 (.ok ())
        (fetch_block o s).2 s1 ?_ ?_ h
      · intro _; rw [hf.2.2.2.1, hgb2]
      · intro habs; simp [exceptIsOk] at habs
    · have hgsu2 : s.got_state_update = false := by simpa using hgsu
      simp only [sync_step_core, hgb2, hgsu2] at h
      cases hfs : fetch_state_and_class_update env o s.current_block_number (fetch_block o s).2 with
      | none => rw [hfs] at h; simp at h
      | some p =>
        obtain ⟨r, s2⟩ := p
        rw [hfs] at h
        have hf := fetch_block_frame o s
        have hfr := fetch_sacu_frame env o s.current_block_number (fetch_block o s).2 r s2 hfs
        refine sync_decision_continued_inv o (fetch_block o s).1 r s2 s1 ?_ ?_ h
        · intro _; rw [hfr.2.1, hf.2.2.2.1, hgb2]
        · intro _; rw [hfr.2.2.1, hf.2.2.2.2.1, hgsu2]

theorem sync_step_core_terminated_seal (env : SyncEnv) (o : IterOutcome) (s s1 : SyncState)
    (h : sync_step_core env o s = .terminated s1) :
    ∃ e, o.seal_reply = .error e := by
  by_cases hgb : s.got_block = true
  · by_cases hgsu : s.got_state_update = true
    · simp only [sync_step_core, hgb, hgsu] at h
      simp at h
    · have hgsu2 : s.got_state_update = false := by simpa using hgsu
      simp only [sync_step_core, hgb, hgsu2] at h
      cases hfs : fetch_state_and_class_update env o s.current_block_number s with
      | none => rw [hfs] at h; simp at h
      | some p =>
        obtain ⟨r, s2⟩ := p
        rw [hfs] at h
        exact sync_decision_terminated_seal o (.ok ()) r s2 s1 h
  · have hgb2 : s.got_block = false := by simpa using hgb
    by_cases hgsu : s.got_state_update = true
    · simp only [sync_step_core, hgb2, hgsu] at h
      exact sync_decision_terminated_seal o (fetch_block o s).1 (.ok ()) (fetch_block o s).2 s1 h
    · have hgsu2 : s.got_state_update = false := by simpa using hgsu
      simp only [sync_step_core, hgb2, hgsu2] at h
      cases hfs : fetch_state_and_class_update env o s.current_block_number (fetch_block o s).2 with
      | none => rw [hfs] at h; simp at h
      | some p =>
        obtain ⟨r, s2⟩ := p
        rw [hfs] at h
        exact sync_decision_terminated_seal o (fetch_block o s).1 r s2 s1 h

theorem sync_step_eq_core (env : SyncEnv) (o : IterOutcome) (s : SyncState) :
    sync_step env o s =
      sync_step_core env o
        (if o.to_fires then { s with slots := (update_starknet_data env o s.slots).2 } else s) :=
  rfl

theorem to_state_frame (env : SyncEnv) (o : IterOutcome) (s : SyncState) :
    (if o.to_fires then { s with slots := (update_starknet_data env o s.slots).2 }
      else s).got_block = s.got_block
    ∧ (if o.to_fires then { s with slots := (update_starknet_data env o s.slots).2 }
        else s).got_state_update = s.got_state_update
    ∧ (if o.to_fires then { s with slots := (update_starknet_data env o s.slots).2 }
        else s).sent_blocks = s.sent_blocks
    ∧ (if o.to_fires then { s with slots := (update_starknet_data env o s.slots).2 }
        else s).sent_state_updates = s.sent_state_updates
    ∧ (if o.to_fires then { s with slots := (update_starknet_data env o s.slots).2 }
        else s).sent_class_updates = s.sent_class_updates
    ∧ (if o.to_fires then { s with slots := (update_starknet_data env o s.slots).2 }
        else s).slots.starknet_state_update = s.slots.starknet_state_update := by
  by_cases hto : o.to_fires = true <;>
    simp [hto, update_starknet_data_tip_frame]

/-! ## C3 — partial-success memoization -/

/-- C3: with exactly one of the two fetches memoized as succeeded, the
next iteration re-attempts only the failed one (the other's dispatch lists
and the verified-tip slot are untouched; symmetrically the block list is
untouched when only the block is memoized); the `(true, true)` decision
state is unreachable (never produced by a step from an invariant state,
and the `unreachable!()` arm is never hit). -/
theorem c3_partial_success_memoization (env : SyncEnv) (o : IterOutcome) (s : SyncState)
    (hinv : ¬(s.got_block = true ∧ s.got_state_update = true)) :
    (s.got_block = false → s.got_state_update = true →
      ∀ s1, stepState (sync_step env o s) = some s1 →
        s1.sent_state_updates = s.sent_state_updates
        ∧ s1.sent_class_updates = s.sent_class_updates
        ∧ s1.slots.starknet_state_update = s.slots.starknet_state_update
        ∧ (∀ b, o.block_fetch = .ok b → o.block_send_ok = true →
            s1.sent_blocks = s.sent_blocks ++ [b]))
    ∧ (s.got_block = true → s.got_state_update = false →
      ∀ s1, stepState (sync_step env o s) = some s1 → s1.sent_blocks = s.sent_blocks)
    ∧ sync_step env o s ≠ .unreachableHit
    ∧ (∀ s1, sync_step env o s = .continued s1 →
        ¬(s1.got_block = true ∧ s1.got_state_update = true)) := by
  have hto := to_state_frame env o s
  rw [sync_step_eq_core]
  refine ⟨?_, ?_, ?_, ?_⟩
  · intro hgb hgsu s1 h
    have hc := sync_step_core_su_frame env o _ (hto.1.trans hgb) (hto.2.1.trans hgsu) s1 h
    refine ⟨hc.1.trans hto.2.2.2.1, hc.2.1.trans hto.2.2.2.2.1, ?_, ?_⟩
    · rw [hc.2.2.1]
      exact hto.2.2.2.2.2
    · intro b hb hsend
      rw [hc.2.2.2 b hb hsend, hto.2.2.1]
  · intro hgb hgsu s1 h
    have hc := sync_step_core_block_frame env o _ (hto.1.trans hgb) (hto.2.1.trans hgsu) s1 h
    exact hc.trans hto.2.2.1
  · refine sync_step_core_not_unreachable env o _ ?_
    rw [hto.1, hto.2.1]
    exact hinv
  · intro s1 h
    refine sync_step_core_continued_inv env o _ s1 ?_ h
    rw [hto.1, hto.2.1]
    exact hinv

/-! ## C1 — channel send errors and loop termination -/

/-- A state update with an empty state diff (no classes to download). -/
def suEmptyDiff : StateUpdate :=
  { block_hash := some 11, old_root := 0, new_root := 5, state_diff := ⟨[], [], [], []⟩ }

/-- An iteration oracle in which the block channel send fails (sink
closed) while the whole state-update chain succeeds. -/
def outClosedBlockSink : IterOutcome :=
  { to_fires := false
    pending_fetch := .error "e"
    pending_su_fetch := .error "e"
    block_fetch := .ok 42
    block_send_ok := false
    state_fetch := .ok suEmptyDiff
    class_dl := fun _ _ => .error "unused"
    su_send_ok := true
    cls_send_ok := true
    try_send_ok := true
    seal_reply := .ok 7 }

/-- The state after one iteration of `outClosedBlockSink` from
`stateInit`: the state-update side succeeded and is memoized, the block
dispatch failed, the loop continues. -/
def c1StateAfter : SyncState :=
  { current_block_number := 3
    got_block := false
    got_state_update := true
    last_block_hash := none
    slots :=
      { starknet_state_update := ⟨3, 0, 11⟩
        highest_block_hash_and_number := (0, 0)
        pending_block := none
        pending_state_update := none }
    sent_blocks := []
    sent_state_updates := [suEmptyDiff]
    sent_class_updates := [[]] }

/-- C1 counterexample: a failed block-channel send (sink closed) does not
terminate the loop — the iteration ends in `continued` (the 10-second
sleep and retry path), and two iterations later the loop is still
running. -/
theorem c1_counterexample :
    outClosedBlockSink.block_send_ok = false
    ∧ sync_step envCold outClosedBlockSink stateInit = .continued c1StateAfter
    ∧ c1StateAfter.got_state_update = true
    ∧ sync_run envCold (fun _ => outClosedBlockSink) 0 2 stateInit = .running c1StateAfter := by
  refine ⟨rfl, by decide, rfl, by decide⟩

/-- C1 (amended): a channel send error is treated like any transient fetch
failure — the loop sleeps and retries; the only way an iteration
terminates the loop is a consensus-seal failure. -/
theorem c1_channel_send_error_retries (env : SyncEnv) (o : IterOutcome) (s s1 : SyncState)
    (h : sync_step env o s = .terminated s1) :
    ∃ e, o.seal_reply = .error e := by
  rw [sync_step_eq_core] at h
  exact sync_step_core_terminated_seal env o _ s1 h

/-- An iteration oracle whose consensus-seal reply is an error while
everything else succeeds. -/
def outSealFail : IterOutcome := { outClosedBlockSink with
  block_send_ok := true
  seal_reply := .error "seal failed" }

/-- The state at which `outSealFail` terminates the loop. -/
def c1SealFailState : SyncState :=
  { current_block_number := 3
    got_block := true
    got_state_update := true
    last_block_hash := none
    slots :=
      { starknet_state_update := ⟨3, 0, 11⟩
        highest_block_hash_and_number := (0, 0)
        pending_block := none
        pending_state_update := none }
    sent_blocks := [42]
    sent_state_updates := [suEmptyDiff]
    sent_class_updates := [[]] }

/-- C1 witness: a concrete terminated iteration, whose cause the amended
theorem pins to a seal failure. -/
theorem c1_channel_send_error_retries_witness :
    ∃ e, outSealFail.seal_reply = .error e :=
  c1_channel_send_error_retries envCold outSealFail stateInit c1SealFailState (by decide)

/-- The loop state with only the state-update side memoized. -/
def c3State : SyncState := { stateInit with got_state_update := true }

/-- C3 witness: the invariant state `(false, true)` steps without hitting
the `unreachable!()` arm. -/
theorem c3_partial_success_memoization_witness :
    sync_step envCold outClosedBlockSink c3State ≠ .unreachableHit :=
  (c3_partial_success_memoization envCold outClosedBlockSink c3State (by decide)).2.2.1

/-! ## C5 — seal on double success -/

/-- C5: when both the block fetch and the state-update chain of an
iteration succeeded, the loop tail asks the consensus engine to seal; on a
successful seal the height advances by exactly one and both memoization
flags reset, and on a seal failure the iteration terminates the loop,
after which the loop runs no further iteration. -/
theorem c5_both_ok_seal_advances (env : SyncEnv) (outs : Nat → IterOutcome) (o : IterOutcome)
    (s : SyncState) (htry : o.try_send_ok = true) :
    (∀ h, o.seal_reply = .ok h →
      sync_decision o (.ok ()) (.ok ()) s =
        .continued { s with
          current_block_number := s.current_block_number + 1
          got_block := false
          got_state_update := false
          last_block_hash := some h })
    ∧ (∀ e, o.seal_reply = .error e →
      sync_decision o (.ok ()) (.ok ()) s =
        .terminated { s with got_block := true, got_state_update := true })
    ∧ (∀ i fuel s1 s2, sync_step env (outs i) s1 = .terminated s2 →
        sync_run env outs i (fuel + 1) s1 = .stopped s2) := by
  refine ⟨?_, ?_, ?_⟩
  · intro hh hseal
    simp [sync_decision, create_block, htry, hseal, exceptIsOk]
  · intro e hseal
    simp [sync_decision, create_block, htry, hseal, exceptIsOk]
  · intro i fuel s1 s2 h
    simp [sync_run, h]

/-- C5 witness: a concrete double success advancing from height 3 to 4
with both flags reset. -/
theorem c5_both_ok_seal_advances_witness :
    sync_decision outDlFail (.ok ()) (.ok ()) stateInit =
      .continued { stateInit with
        current_block_number := stateInit.current_block_number + 1
        got_block := false
        got_state_update := false
        last_block_hash := some 7 } :=
  (c5_both_ok_seal_advances envCold (fun _ => outDlFail) outDlFail stateInit rfl).1 7 rfl
